import Mathlib

set_option maxRecDepth 8000

noncomputable section

/-!
Shallow embedding of `src/pyfmrheo/models/correction_factors.py`: the six
bottom effect correction (BEC) coefficient providers used in AFM
nanoindentation analysis. Python floats are modelled by exact reals;
`np.sqrt`, `np.tan` and `np.pi` by `Real.sqrt`, `Real.tan` and `Real.pi`.
A provider either raises (`Except.error`, the geometry gate) or returns
one coefficient per input sample.  The per-sample `try/except` block is
modelled by an `Option`-valued sample body: `none` stands for a caught
per-sample exception (for example the `IndexError` raised when an order
exceeds a term table), which degrades that sample's coefficient to `1.0`
and lets the loop continue.
-/

/-- Per-sample loop with the catch-log-default policy shared by every
provider (`for i in range(len(indentation)): try: ... append(coeff)
except: append(1.0)`): a sample whose body raises contributes `1.0`, so
the output always has one entry per input sample. -/
def runSamples (body : ℝ → Option ℝ) (indentation : List ℝ) : List ℝ :=
  indentation.map (fun d => (body d).getD 1.0)

/-- Sample body of `bec_dimitriadis_paraboloid_bonded`, lines 15-20 of the
source: identity below zero height, otherwise the bonded Dimitriadis
series in `X = sqrt(indentation[i] * R) / h`. -/
def dimBondedSample (h R d : ℝ) : Option ℝ :=
  some (if h > 0 then
    let X := Real.sqrt (d * R) / h
    1 + (1.133 * X + 1.283 * X ^ 2) + (0.769 * X ^ 3 + 0.0975 * X ^ 4)
  else 1.0)

/-- Equation (12) of Dimitriadis et al. 2002, lines 9-28 of the source. -/
def bec_dimitriadis_paraboloid_bonded (h : ℝ) (indentation : List ℝ)
    (ind_shape : String) (R : ℝ) : Except String (List ℝ) :=
  if ind_shape ≠ "paraboloid" then
    .error ("The Dimitriadis paraboloid bonded BEC model is not suitable for the "
      ++ ind_shape ++ " geometry.")
  else
    .ok (runSamples (dimBondedSample h R) indentation)

/-- Sample body of `bec_dimitriadis_paraboloid_not_bonded`, lines 37-42. -/
def dimNotBondedSample (h R d : ℝ) : Option ℝ :=
  some (if h > 0 then
    let X := Real.sqrt (d * R) / h
    1 + (0.884 * X + 0.781 * X ^ 2) + (0.386 * X ^ 3 + 0.0048 * X ^ 4)
  else 1.0)

/-- Equation (11) of Dimitriadis et al. 2002, lines 31-50 of the source. -/
def bec_dimitriadis_paraboloid_not_bonded (h : ℝ) (indentation : List ℝ)
    (ind_shape : String) (R : ℝ) : Except String (List ℝ) :=
  if ind_shape ≠ "paraboloid" then
    .error ("The Dimitriadis paraboloid not bonded BEC model is not suitable for the "
      ++ ind_shape ++ " geometry.")
  else
    .ok (runSamples (dimNotBondedSample h R) indentation)

/-- Sample body of `bec_gavara_cone`, lines 61-67. -/
def gavaraSample (h half_opening_angle d : ℝ) : Option ℝ :=
  some (if h > 0 then
    let X := d / h
    let tan_angle := Real.tan half_opening_angle
    1 + 1.7795 * (2 * tan_angle / Real.pi ^ 2) * X
      + 16.0 * 1.7795 ^ 2 * tan_angle ^ 2 * X ^ 2
  else 1.0)

/-- Gavara et al. 2012 cone model, lines 55-75 of the source. -/
def bec_gavara_cone (h : ℝ) (indentation : List ℝ)
    (ind_shape : String) (half_opening_angle : ℝ) : Except String (List ℝ) :=
  if ind_shape ≠ "cone" then
    .error ("The Gavara cone BEC model is not suitable for the "
      ++ ind_shape ++ " geometry.")
  else
    .ok (runSamples (gavaraSample h half_opening_angle) indentation)

/-- Sample body of `bec_managuli_cone`, lines 87-92. -/
def managuliSample (h half_opening_angle d : ℝ) : Option ℝ :=
  some (if h > 0 then
    let C := 1.7795 * Real.tan half_opening_angle / Real.pi ^ 2
    1 + 4 * C * d / h + 20 * C ^ 2 * d ^ 2 / h ^ 2
  else 1.0)

/-- Equation (1) of Managuli et al. 2018, lines 81-100 of the source. -/
def bec_managuli_cone (h : ℝ) (indentation : List ℝ)
    (ind_shape : String) (half_opening_angle : ℝ) : Except String (List ℝ) :=
  if ind_shape ≠ "cone" then
    .error ("The Managuli cone BEC model is not suitable for the "
      ++ ind_shape ++ " geometry.")
  else
    .ok (runSamples (managuliSample h half_opening_angle) indentation)

/-- Garcia-Garcia paraboloid term table, lines 105-110. -/
def paraboloid_model_factors : List (ℝ → ℝ → ℝ → ℝ) :=
  [fun h indentation R => 1.133 * Real.sqrt (indentation * R) / h,
   fun h indentation R => 1.497 * indentation * R / h ^ 2,
   fun h indentation R => 1.469 * indentation * R * Real.sqrt (indentation * R) / h ^ 3,
   fun h indentation R => 0.755 * indentation ^ 2 * R ^ 2 / h ^ 4]

/-- Garcia-Garcia conical term table, lines 112-117. -/
def conical_model_factors : List (ℝ → ℝ → ℝ → ℝ) :=
  [fun h indentation half_opening_angle =>
      0.721 * indentation * Real.tan half_opening_angle / h,
   fun h indentation half_opening_angle =>
      0.650 * indentation ^ 2 * Real.tan half_opening_angle ^ 2 / h ^ 2,
   fun h indentation half_opening_angle =>
      0.491 * indentation ^ 3 * Real.tan half_opening_angle ^ 3 / h ^ 3,
   fun h indentation half_opening_angle =>
      0.225 * indentation ^ 4 * Real.tan half_opening_angle ^ 4 / h ^ 4]

/-- Garcia-Garcia flat punch term table, lines 119-124. -/
def flat_punch_model_factors : List (ℝ → ℝ → ℝ → ℝ) :=
  [fun h _ R => 1.133 * R / h,
   fun h _ R => 1.283 * R ^ 2 / h ^ 2,
   fun h _ R => 0.598 * R ^ 3 / h ^ 3,
   fun h _ R => -(0.291 * R ^ 4) / h ^ 4]

/-- Geometry-indexed dispatch dictionary `garcia_garcia_factors` of lines
126-130, read through `.get(ind_shape, None)`: `none` models a falsy
lookup (key absent). -/
def garcia_garcia_factors (ind_shape : String) : Option (List (ℝ → ℝ → ℝ → ℝ)) :=
  if ind_shape = "paraboloid" then some paraboloid_model_factors
  else if ind_shape = "conical" then some conical_model_factors
  else if ind_shape = "flat_punch" then some flat_punch_model_factors
  else none

/-- Sample body of `bec_garcia_garcia`, lines 141-147: start at `1.0`
when `h > 0` and accumulate the first `order` table entries; indexing past
the end of the table (`model_factors[j]`) raises, modelled by `none`. -/
def garciaSample (model_factors : List (ℝ → ℝ → ℝ → ℝ)) (h tip_parameter : ℝ)
    (order : ℕ) (d : ℝ) : Option ℝ :=
  if h > 0 then
    (List.range order).foldlM (fun coeff j =>
      (model_factors[j]?).map (fun O => coeff + O h d tip_parameter)) 1.0
  else
    some 1.0

/-- Garcia et al. 2018 generalized provider, lines 132-153 of the source.
The Python default `order=4` is passed explicitly by callers here. -/
def bec_garcia_garcia (h : ℝ) (indentation : List ℝ) (ind_shape : String)
    (tip_parameter : ℝ) (order : ℕ) : Except String (List ℝ) :=
  match garcia_garcia_factors ind_shape with
  | none => .error ("The Garcia, Garcia BEC model is not suitable for the "
      ++ ind_shape ++ " geometry.")
  | some model_factors =>
      .ok (runSamples (garciaSample model_factors h tip_parameter order) indentation)

/-- Kontomaris 2021 term table, lines 166-173 of the source; the order-1
entry ignores the indentation depth. -/
def kontomaris_model_factors : List (ℝ → ℝ → ℝ) :=
  [fun _ R => 2 / 3 * 1.0100000 / Real.sqrt R,
   fun indentation R => 1 / 2 * (-0.0730300) * Real.sqrt indentation / R,
   fun indentation R => 1 / 3 * (-0.1357000) * indentation * Real.sqrt indentation / R ^ 2,
   fun indentation R => 1 / 4 * 0.0359800 * indentation ^ 2 * Real.sqrt indentation / R ^ 3,
   fun indentation R => 1 / 5 * (-0.0040240) * indentation ^ 3 * Real.sqrt indentation / R ^ 4,
   fun indentation R => 1 / 6 * 0.0001653 * indentation ^ 4 * Real.sqrt indentation / R ^ 5]

/-- Sample body of `sphere_approx_kontomaris`, lines 184-189: start at
`0.0` and accumulate `3/2 * sqrt(R) * O(indentation[i], R)` over the first
`order` table entries. -/
def kontomarisSample (R : ℝ) (order : ℕ) (d : ℝ) : Option ℝ :=
  (List.range order).foldlM (fun coeff j =>
    (kontomaris_model_factors[j]?).map (fun O => coeff + 3 / 2 * Real.sqrt R * O d R)) 0.0

/-- Kontomaris 2021 spherical approximation provider, lines 175-196 of
the source; the first (sample height) parameter is the unused `_`. The
Python default `order=6` is passed explicitly by callers here. -/
def sphere_approx_kontomaris (_sample_height : ℝ) (indentation : List ℝ)
    (ind_shape : String) (R : ℝ) (order : ℕ) : Except String (List ℝ) :=
  if ind_shape ≠ "paraboloid" then
    .error "The Kontomaris approximation is only suitable for the paraboloid geometry."
  else
    .ok (runSamples (kontomarisSample R order) indentation)

/-- Projection of a provider result to its coefficient list, empty on the
error branch. -/
def outList : Except String (List ℝ) → List ℝ
  | .ok l => l
  | .error _ => []

/-- Projection of a provider result to the length of the returned
coefficient list, `none` on the error branch. -/
def okLength : Except String (List ℝ) → Option ℕ
  | .ok l => some l.length
  | .error _ => none

/-! Provider unfolding lemmas for geometry tags that pass the gate. -/

lemma dim_bonded_ok (h R : ℝ) (ind : List ℝ) :
    bec_dimitriadis_paraboloid_bonded h ind "paraboloid" R =
      .ok (runSamples (dimBondedSample h R) ind) := by
  unfold bec_dimitriadis_paraboloid_bonded
  rw [if_neg (fun hc => hc rfl)]

lemma dim_not_bonded_ok (h R : ℝ) (ind : List ℝ) :
    bec_dimitriadis_paraboloid_not_bonded h ind "paraboloid" R =
      .ok (runSamples (dimNotBondedSample h R) ind) := by
  unfold bec_dimitriadis_paraboloid_not_bonded
  rw [if_neg (fun hc => hc rfl)]

lemma gavara_ok (h a : ℝ) (ind : List ℝ) :
    bec_gavara_cone h ind "cone" a =
      .ok (runSamples (gavaraSample h a) ind) := by
  unfold bec_gavara_cone
  rw [if_neg (fun hc => hc rfl)]

lemma managuli_ok (h a : ℝ) (ind : List ℝ) :
    bec_managuli_cone h ind "cone" a =
      .ok (runSamples (managuliSample h a) ind) := by
  unfold bec_managuli_cone
  rw [if_neg (fun hc => hc rfl)]

lemma garcia_ok_paraboloid (h tip : ℝ) (ind : List ℝ) (order : ℕ) :
    bec_garcia_garcia h ind "paraboloid" tip order =
      .ok (runSamples (garciaSample paraboloid_model_factors h tip order) ind) := by
  unfold bec_garcia_garcia garcia_garcia_factors
  rw [if_pos rfl]

lemma garcia_ok_conical (h tip : ℝ) (ind : List ℝ) (order : ℕ) :
    bec_garcia_garcia h ind "conical" tip order =
      .ok (runSamples (garciaSample conical_model_factors h tip order) ind) := by
  unfold bec_garcia_garcia garcia_garcia_factors
  rw [if_neg (by decide), if_pos rfl]

lemma garcia_ok_flat_punch (h tip : ℝ) (ind : List ℝ) (order : ℕ) :
    bec_garcia_garcia h ind "flat_punch" tip order =
      .ok (runSamples (garciaSample flat_punch_model_factors h tip order) ind) := by
  unfold bec_garcia_garcia garcia_garcia_factors
  rw [if_neg (by decide), if_neg (by decide), if_pos rfl]

lemma kontomaris_ok (hgt R : ℝ) (ind : List ℝ) (order : ℕ) :
    sphere_approx_kontomaris hgt ind "paraboloid" R order =
      .ok (runSamples (kontomarisSample R order) ind) := by
  unfold sphere_approx_kontomaris
  rw [if_neg (fun hc => hc rfl)]

lemma runSamples_length (body : ℝ → Option ℝ) (ind : List ℝ) :
    (runSamples body ind).length = ind.length := by
  unfold runSamples
  exact List.length_map _ _

/-- C1: for every provider, on every input that passes the geometry gate
the returned coefficient sequence has exactly the length of the input
indentation sequence, for any height, tip parameter and order (including
orders that make every per-sample computation fail). -/
theorem C1_length_invariant (h R a tip : ℝ) (ind : List ℝ) (order : ℕ) :
    okLength (bec_dimitriadis_paraboloid_bonded h ind "paraboloid" R) = some ind.length ∧
    okLength (bec_dimitriadis_paraboloid_not_bonded h ind "paraboloid" R) = some ind.length ∧
    okLength (bec_gavara_cone h ind "cone" a) = some ind.length ∧
    okLength (bec_managuli_cone h ind "cone" a) = some ind.length ∧
    okLength (bec_garcia_garcia h ind "paraboloid" tip order) = some ind.length ∧
    okLength (bec_garcia_garcia h ind "conical" tip order) = some ind.length ∧
    okLength (bec_garcia_garcia h ind "flat_punch" tip order) = some ind.length ∧
    okLength (sphere_approx_kontomaris h ind "paraboloid" R order) = some ind.length := by
  refine ⟨?_, ?_, ?_, ?_, ?_, ?_, ?_, ?_⟩ <;>
    simp [dim_bonded_ok, dim_not_bonded_ok, gavara_ok, managuli_ok,
      garcia_ok_paraboloid, garcia_ok_conical, garcia_ok_flat_punch,
      kontomaris_ok, okLength, runSamples_length]

/-- C9: the output of `sphere_approx_kontomaris` does not depend on its
first (sample height) argument: two calls differing only in that argument
return identical results. -/
theorem C9_height_unused (h1 h2 R : ℝ) (ind : List ℝ) (shape : String) (order : ℕ) :
    sphere_approx_kontomaris h1 ind shape R order =
      sphere_approx_kontomaris h2 ind shape R order := rfl

/-! Helper lemmas about the per-sample harness and the Garcia sample body. -/

lemma runSamples_const_val (body : ℝ → Option ℝ) (ind : List ℝ) (v : ℝ)
    (hb : ∀ d, body d = some v) :
    runSamples body ind = List.replicate ind.length v := by
  unfold runSamples
  rw [show (fun d => (body d).getD 1.0) = fun _ => v from
    funext fun d => by rw [hb d]; rfl]
  simp

lemma runSamples_none (body : ℝ → Option ℝ) (ind : List ℝ)
    (hb : ∀ d, body d = none) :
    runSamples body ind = List.replicate ind.length 1.0 := by
  unfold runSamples
  rw [show (fun d => (body d).getD 1.0) = fun _ => (1.0 : ℝ) from
    funext fun d => by rw [hb d]; rfl]
  simp

lemma foldlM_factors_none {α : Type} (factors : List α) (g : ℝ → α → ℝ) :
    ∀ (l : List ℕ) (s : ℝ), (∃ j ∈ l, factors[j]? = none) →
      List.foldlM (fun c j => (factors[j]?).map (fun x => g c x)) s l = none := by
  intro l
  induction l with
  | nil =>
    intro s hex
    simp at hex
  | cons a as ih =>
    intro s hex
    rw [List.foldlM_cons]
    rcases hex with ⟨j, hj, hnone⟩
    rcases List.mem_cons.mp hj with rfl | hj'
    · rw [hnone]
      rfl
    · cases hfa : factors[a]? with
      | none => rfl
      | some x => exact ih (g s x) ⟨j, hj', hnone⟩

lemma garciaSample_nonpos (factors : List (ℝ → ℝ → ℝ → ℝ)) (h tip d : ℝ)
    (order : ℕ) (hh : ¬ h > 0) :
    garciaSample factors h tip order d = some 1.0 := by
  unfold garciaSample
  rw [if_neg hh]

lemma garciaSample_overflow (factors : List (ℝ → ℝ → ℝ → ℝ)) (h tip d : ℝ)
    (order : ℕ) (hh : h > 0) (hord : factors.length < order) :
    garciaSample factors h tip order d = none := by
  unfold garciaSample
  rw [if_pos hh]
  exact foldlM_factors_none factors (fun c O => c + O h d tip) (List.range order) 1.0
    ⟨factors.length, List.mem_range.mpr hord, List.getElem?_eq_none (le_refl _)⟩

lemma garciaSample_zero_order (factors : List (ℝ → ℝ → ℝ → ℝ)) (h tip d : ℝ) :
    garciaSample factors h tip 0 d = some 1.0 := by
  unfold garciaSample
  split <;> rfl

lemma kontomarisSample_zero_order (R d : ℝ) :
    kontomarisSample R 0 d = some 0.0 := rfl

/-- C5: for every provider except `sphere_approx_kontomaris`, a sample
height `h ≤ 0` makes every output coefficient exactly `1.0`, for every
indentation sequence, gate-passing shape, tip parameter and order. -/
theorem C5_identity_nonpositive_height (h R a tip : ℝ) (ind : List ℝ) (order : ℕ)
    (hh : h ≤ 0) :
    bec_dimitriadis_paraboloid_bonded h ind "paraboloid" R =
      .ok (List.replicate ind.length 1.0) ∧
    bec_dimitriadis_paraboloid_not_bonded h ind "paraboloid" R =
      .ok (List.replicate ind.length 1.0) ∧
    bec_gavara_cone h ind "cone" a = .ok (List.replicate ind.length 1.0) ∧
    bec_managuli_cone h ind "cone" a = .ok (List.replicate ind.length 1.0) ∧
    bec_garcia_garcia h ind "paraboloid" tip order =
      .ok (List.replicate ind.length 1.0) ∧
    bec_garcia_garcia h ind "conical" tip order =
      .ok (List.replicate ind.length 1.0) ∧
    bec_garcia_garcia h ind "flat_punch" tip order =
      .ok (List.replicate ind.length 1.0) := by
  have hng : ¬ h > 0 := not_lt.mpr hh
  refine ⟨?_, ?_, ?_, ?_, ?_, ?_, ?_⟩
  · rw [dim_bonded_ok, runSamples_const_val _ _ _
      (fun d => by unfold dimBondedSample; rw [if_neg hng])]
  · rw [dim_not_bonded_ok, runSamples_const_val _ _ _
      (fun d => by unfold dimNotBondedSample; rw [if_neg hng])]
  · rw [gavara_ok, runSamples_const_val _ _ _
      (fun d => by unfold gavaraSample; rw [if_neg hng])]
  · rw [managuli_ok, runSamples_const_val _ _ _
      (fun d => by unfold managuliSample; rw [if_neg hng])]
  · rw [garcia_ok_paraboloid, runSamples_const_val _ _ _
      (fun d => garciaSample_nonpos _ h tip d order hng)]
  · rw [garcia_ok_conical, runSamples_const_val _ _ _
      (fun d => garciaSample_nonpos _ h tip d order hng)]
  · rw [garcia_ok_flat_punch, runSamples_const_val _ _ _
      (fun d => garciaSample_nonpos _ h tip d order hng)]

/-- Witness for C5 at `h = -1`, indentations `[5, 6]`, `R = 2`,
half-opening angle `1`, tip parameter `3`, order `9`. -/
theorem C5_identity_nonpositive_height_witness :
    bec_dimitriadis_paraboloid_bonded (-1) [5, 6] "paraboloid" 2 =
      .ok (List.replicate 2 1.0) ∧
    bec_dimitriadis_paraboloid_not_bonded (-1) [5, 6] "paraboloid" 2 =
      .ok (List.replicate 2 1.0) ∧
    bec_gavara_cone (-1) [5, 6] "cone" 1 = .ok (List.replicate 2 1.0) ∧
    bec_managuli_cone (-1) [5, 6] "cone" 1 = .ok (List.replicate 2 1.0) ∧
    bec_garcia_garcia (-1) [5, 6] "paraboloid" 3 9 = .ok (List.replicate 2 1.0) ∧
    bec_garcia_garcia (-1) [5, 6] "conical" 3 9 = .ok (List.replicate 2 1.0) ∧
    bec_garcia_garcia (-1) [5, 6] "flat_punch" 3 9 = .ok (List.replicate 2 1.0) :=
  C5_identity_nonpositive_height (-1) 2 1 3 [5, 6] 9 (by norm_num)

/-- C10: with truncation order `0`, `sphere_approx_kontomaris` returns the
accumulator start `0.0` (not the neutral `1.0`) for every sample, while
`bec_garcia_garcia` with any supported shape returns `1.0` for every
sample. -/
theorem C10_order_zero (h tip R : ℝ) (ind : List ℝ) :
    sphere_approx_kontomaris h ind "paraboloid" R 0 =
      .ok (List.replicate ind.length 0.0) ∧
    bec_garcia_garcia h ind "paraboloid" tip 0 =
      .ok (List.replicate ind.length 1.0) ∧
    bec_garcia_garcia h ind "conical" tip 0 =
      .ok (List.replicate ind.length 1.0) ∧
    bec_garcia_garcia h ind "flat_punch" tip 0 =
      .ok (List.replicate ind.length 1.0) := by
  refine ⟨?_, ?_, ?_, ?_⟩
  · rw [kontomaris_ok, runSamples_const_val _ _ _
      (fun d => kontomarisSample_zero_order R d)]
  · rw [garcia_ok_paraboloid, runSamples_const_val _ _ _
      (fun d => garciaSample_zero_order _ h tip d)]
  · rw [garcia_ok_conical, runSamples_const_val _ _ _
      (fun d => garciaSample_zero_order _ h tip d)]
  · rw [garcia_ok_flat_punch, runSamples_const_val _ _ _
      (fun d => garciaSample_zero_order _ h tip d)]

/-- C2: a per-sample numeric failure (a sample body that raises, `none` in
the embedding) degrades that sample's coefficient to `1.0`, is not raised
to the caller, and leaves the remaining samples processed as usual: the
output is still the element-wise image of the input, and every provider
returns `.ok` of the harness output on gate-passing shapes. -/
theorem C2_per_sample_isolation (body : ℝ → Option ℝ) (ind : List ℝ) (i : ℕ)
    (h R a tip : ℝ) (order : ℕ)
    (hi : i < ind.length) (hfail : body ind[i] = none) :
    (runSamples body ind).length = ind.length ∧
    (runSamples body ind)[i]? = some 1.0 ∧
    runSamples body ind = ind.map (fun d => (body d).getD 1.0) ∧
    bec_dimitriadis_paraboloid_bonded h ind "paraboloid" R =
      .ok (runSamples (dimBondedSample h R) ind) ∧
    bec_dimitriadis_paraboloid_not_bonded h ind "paraboloid" R =
      .ok (runSamples (dimNotBondedSample h R) ind) ∧
    bec_gavara_cone h ind "cone" a = .ok (runSamples (gavaraSample h a) ind) ∧
    bec_managuli_cone h ind "cone" a = .ok (runSamples (managuliSample h a) ind) ∧
    bec_garcia_garcia h ind "paraboloid" tip order =
      .ok (runSamples (garciaSample paraboloid_model_factors h tip order) ind) ∧
    sphere_approx_kontomaris h ind "paraboloid" R order =
      .ok (runSamples (kontomarisSample R order) ind) := by
  refine ⟨runSamples_length body ind, ?_, rfl, dim_bonded_ok h R ind,
    dim_not_bonded_ok h R ind, gavara_ok h a ind, managuli_ok h a ind,
    garcia_ok_paraboloid h tip ind order, kontomaris_ok h R ind order⟩
  unfold runSamples
  rw [List.getElem?_map, List.getElem?_eq_getElem hi]
  simp [hfail]

/-- Witness for C2: `bec_garcia_garcia`'s sample body with `order = 5`
genuinely fails (index past the four-entry table), and the sample at
index 0 of `[0.5]` degrades to `1.0` while the call still returns `.ok`. -/
theorem C2_per_sample_isolation_witness :
    (runSamples (garciaSample paraboloid_model_factors 1 1 5) [0.5]).length =
      ([0.5] : List ℝ).length ∧
    (runSamples (garciaSample paraboloid_model_factors 1 1 5) [0.5])[0]? =
      some (1.0 : ℝ) ∧
    runSamples (garciaSample paraboloid_model_factors 1 1 5) [0.5] =
      ([0.5] : List ℝ).map
        (fun d => (garciaSample paraboloid_model_factors 1 1 5 d).getD 1.0) ∧
    bec_dimitriadis_paraboloid_bonded 1 [0.5] "paraboloid" 5 =
      .ok (runSamples (dimBondedSample 1 5) [0.5]) ∧
    bec_dimitriadis_paraboloid_not_bonded 1 [0.5] "paraboloid" 5 =
      .ok (runSamples (dimNotBondedSample 1 5) [0.5]) ∧
    bec_gavara_cone 1 [0.5] "cone" 1 = .ok (runSamples (gavaraSample 1 1) [0.5]) ∧
    bec_managuli_cone 1 [0.5] "cone" 1 =
      .ok (runSamples (managuliSample 1 1) [0.5]) ∧
    bec_garcia_garcia 1 [0.5] "paraboloid" 1 5 =
      .ok (runSamples (garciaSample paraboloid_model_factors 1 1 5) [0.5]) ∧
    sphere_approx_kontomaris 1 [0.5] "paraboloid" 5 5 =
      .ok (runSamples (kontomarisSample 5 5) [0.5]) :=
  C2_per_sample_isolation (garciaSample paraboloid_model_factors 1 1 5)
    [0.5] 0 1 5 1 1 5 Nat.one_pos
    (garciaSample_overflow paraboloid_model_factors 1 1 _ 5 (by norm_num)
      (Nat.lt_succ_self 4))

/-- C4 counterexample: `bec_garcia_garcia` with `order = 5` (exceeding the
four-entry term table) does not raise: the per-sample `IndexError` is
caught by the sample handler, the sample degrades to `1.0`, and a
full-length `.ok` sequence is returned. -/
theorem C4_order_overflow_counterexample :
    bec_garcia_garcia 1 [1] "paraboloid" 1 5 = .ok [1.0] := by
  rw [garcia_ok_paraboloid]
  rw [runSamples_none _ _ (fun d => garciaSample_overflow paraboloid_model_factors
    1 1 d 5 (by norm_num) (Nat.lt_succ_self 4))]
  rfl

/-- C4 amended: calling `bec_garcia_garcia` with an order exceeding the
term-table length 4 does not abort; for every supported geometry the
per-sample index error is swallowed sample by sample and the call returns
an `.ok` sequence of neutral coefficients `1.0`, one per input sample. -/
theorem C4_order_overflow_amended (h tip : ℝ) (ind : List ℝ) (order : ℕ)
    (hord : 4 < order) :
    bec_garcia_garcia h ind "paraboloid" tip order =
      .ok (List.replicate ind.length 1.0) ∧
    bec_garcia_garcia h ind "conical" tip order =
      .ok (List.replicate ind.length 1.0) ∧
    bec_garcia_garcia h ind "flat_punch" tip order =
      .ok (List.replicate ind.length 1.0) := by
  have key : ∀ factors : List (ℝ → ℝ → ℝ → ℝ), factors.length = 4 →
      runSamples (garciaSample factors h tip order) ind =
        List.replicate ind.length 1.0 := by
    intro factors hlen
    by_cases hh : h > 0
    · exact runSamples_none _ _ (fun d => garciaSample_overflow factors h tip d order hh
        (by rw [hlen]; exact hord))
    · exact runSamples_const_val _ _ _ (fun d => garciaSample_nonpos factors h tip d order hh)
  refine ⟨?_, ?_, ?_⟩
  · rw [garcia_ok_paraboloid, key paraboloid_model_factors rfl]
  · rw [garcia_ok_conical, key conical_model_factors rfl]
  · rw [garcia_ok_flat_punch, key flat_punch_model_factors rfl]

/-- Witness for the amended C4 at `h = 1`, tip parameter `2`,
indentations `[1, 3]`, order `5`. -/
theorem C4_order_overflow_amended_witness :
    bec_garcia_garcia 1 [1, 3] "paraboloid" 2 5 = .ok (List.replicate 2 1.0) ∧
    bec_garcia_garcia 1 [1, 3] "conical" 2 5 = .ok (List.replicate 2 1.0) ∧
    bec_garcia_garcia 1 [1, 3] "flat_punch" 2 5 = .ok (List.replicate 2 1.0) :=
  C4_order_overflow_amended 1 2 [1, 3] 5 (by norm_num)

/-- C3 counterexample: `sphere_approx_kontomaris` does gate unsupported
geometries before any per-sample computation, but its error message is a
fixed string that does not identify the offending geometry tag: two calls
with different unsupported tags produce the identical message, and the
offending tag `"cone"` does not occur in it. -/
theorem C3_geometry_gate_counterexample :
    sphere_approx_kontomaris 1 [1] "cone" 5 6 =
      .error "The Kontomaris approximation is only suitable for the paraboloid geometry." ∧
    sphere_approx_kontomaris 1 [1] "sphere" 5 6 =
      sphere_approx_kontomaris 1 [1] "cone" 5 6 ∧
    ¬ ("cone".data <:+:
      "The Kontomaris approximation is only suitable for the paraboloid geometry.".data) := by
  refine ⟨?_, ?_, by decide⟩
  · unfold sphere_approx_kontomaris
    rw [if_pos (by decide : ("cone" : String) ≠ "paraboloid")]
  · unfold sphere_approx_kontomaris
    rw [if_pos (by decide : ("sphere" : String) ≠ "paraboloid"),
      if_pos (by decide : ("cone" : String) ≠ "paraboloid")]

/-- C3 amended: every provider called with a geometry tag it does not
support fails with a structural error before any per-sample computation
and returns no coefficient sequence; the error names the offending
geometry for all providers except `sphere_approx_kontomaris`, whose fixed
message names the provider and its sole supported geometry instead. In
particular `bec_gavara_cone` with shape `"paraboloid"` fails rather than
computing. -/
theorem C3_geometry_gate_amended (h R a tip : ℝ) (ind : List ℝ) (order : ℕ)
    (shape : String) :
    (shape ≠ "paraboloid" → bec_dimitriadis_paraboloid_bonded h ind shape R =
      .error ("The Dimitriadis paraboloid bonded BEC model is not suitable for the "
        ++ shape ++ " geometry.")) ∧
    (shape ≠ "paraboloid" → bec_dimitriadis_paraboloid_not_bonded h ind shape R =
      .error ("The Dimitriadis paraboloid not bonded BEC model is not suitable for the "
        ++ shape ++ " geometry.")) ∧
    (shape ≠ "cone" → bec_gavara_cone h ind shape a =
      .error ("The Gavara cone BEC model is not suitable for the "
        ++ shape ++ " geometry.")) ∧
    (shape ≠ "cone" → bec_managuli_cone h ind shape a =
      .error ("The Managuli cone BEC model is not suitable for the "
        ++ shape ++ " geometry.")) ∧
    (shape ≠ "paraboloid" → shape ≠ "conical" → shape ≠ "flat_punch" →
      bec_garcia_garcia h ind shape tip order =
      .error ("The Garcia, Garcia BEC model is not suitable for the "
        ++ shape ++ " geometry.")) ∧
    (shape ≠ "paraboloid" → sphere_approx_kontomaris h ind shape R order =
      .error "The Kontomaris approximation is only suitable for the paraboloid geometry.") ∧
    bec_gavara_cone h ind "paraboloid" a =
      .error ("The Gavara cone BEC model is not suitable for the "
        ++ "paraboloid" ++ " geometry.") := by
  refine ⟨fun hs => ?_, fun hs => ?_, fun hs => ?_, fun hs => ?_,
    fun h1 h2 h3 => ?_, fun hs => ?_, ?_⟩
  · unfold bec_dimitriadis_paraboloid_bonded
    rw [if_pos hs]
  · unfold bec_dimitriadis_paraboloid_not_bonded
    rw [if_pos hs]
  · unfold bec_gavara_cone
    rw [if_pos hs]
  · unfold bec_managuli_cone
    rw [if_pos hs]
  · unfold bec_garcia_garcia garcia_garcia_factors
    rw [if_neg h1, if_neg h2, if_neg h3]
  · unfold sphere_approx_kontomaris
    rw [if_pos hs]
  · unfold bec_gavara_cone
    rw [if_pos (by decide : ("paraboloid" : String) ≠ "cone")]

/-- Witness for the amended C3 at the unsupported tag `"pyramid"` (and
`"paraboloid"` for the Gavara conjunct). -/
theorem C3_geometry_gate_amended_witness :
    bec_dimitriadis_paraboloid_bonded 1 [0.1] "pyramid" 5 =
      .error ("The Dimitriadis paraboloid bonded BEC model is not suitable for the "
        ++ "pyramid" ++ " geometry.") ∧
    bec_dimitriadis_paraboloid_not_bonded 1 [0.1] "pyramid" 5 =
      .error ("The Dimitriadis paraboloid not bonded BEC model is not suitable for the "
        ++ "pyramid" ++ " geometry.") ∧
    bec_gavara_cone 1 [0.1] "pyramid" 0.5 =
      .error ("The Gavara cone BEC model is not suitable for the "
        ++ "pyramid" ++ " geometry.") ∧
    bec_managuli_cone 1 [0.1] "pyramid" 0.5 =
      .error ("The Managuli cone BEC model is not suitable for the "
        ++ "pyramid" ++ " geometry.") ∧
    bec_garcia_garcia 1 [0.1] "pyramid" 5 4 =
      .error ("The Garcia, Garcia BEC model is not suitable for the "
        ++ "pyramid" ++ " geometry.") ∧
    sphere_approx_kontomaris 1 [0.1] "pyramid" 5 6 =
      .error "The Kontomaris approximation is only suitable for the paraboloid geometry." ∧
    bec_gavara_cone 1 [0.1] "paraboloid" 0.5 =
      .error ("The Gavara cone BEC model is not suitable for the "
        ++ "paraboloid" ++ " geometry.") :=
  ⟨(C3_geometry_gate_amended 1 5 0.5 5 [0.1] 4 "pyramid").1 (by decide),
   (C3_geometry_gate_amended 1 5 0.5 5 [0.1] 4 "pyramid").2.1 (by decide),
   (C3_geometry_gate_amended 1 5 0.5 5 [0.1] 4 "pyramid").2.2.1 (by decide),
   (C3_geometry_gate_amended 1 5 0.5 5 [0.1] 4 "pyramid").2.2.2.1 (by decide),
   (C3_geometry_gate_amended 1 5 0.5 5 [0.1] 4 "pyramid").2.2.2.2.1
     (by decide) (by decide) (by decide),
   (C3_geometry_gate_amended 1 5 0.5 5 [0.1] 6 "pyramid").2.2.2.2.2.1 (by decide),
   (C3_geometry_gate_amended 1 5 0.5 5 [0.1] 4 "pyramid").2.2.2.2.2.2⟩

/-- C6: for the Dimitriadis (bonded and not bonded), Gavara and Managuli
providers, a sample whose indentation depth is exactly `0` with `h > 0`
yields the coefficient exactly `1.0`: every series term vanishes. -/
theorem C6_zero_indentation_neutral (h R a : ℝ) (ind : List ℝ) (i : ℕ)
    (hh : h > 0) (hi : i < ind.length) (hd : ind[i] = 0) :
    (outList (bec_dimitriadis_paraboloid_bonded h ind "paraboloid" R))[i]? =
      some (1.0 : ℝ) ∧
    (outList (bec_dimitriadis_paraboloid_not_bonded h ind "paraboloid" R))[i]? =
      some (1.0 : ℝ) ∧
    (outList (bec_gavara_cone h ind "cone" a))[i]? = some (1.0 : ℝ) ∧
    (outList (bec_managuli_cone h ind "cone" a))[i]? = some (1.0 : ℝ) := by
  have hmap : ∀ body : ℝ → Option ℝ, body 0 = some 1.0 →
      (runSamples body ind)[i]? = some (1.0 : ℝ) := by
    intro body hb
    unfold runSamples
    rw [List.getElem?_map, List.getElem?_eq_getElem hi, hd]
    simp [hb]
  refine ⟨?_, ?_, ?_, ?_⟩
  · rw [dim_bonded_ok]
    exact hmap _ (by unfold dimBondedSample; rw [if_pos hh]; norm_num)
  · rw [dim_not_bonded_ok]
    exact hmap _ (by unfold dimNotBondedSample; rw [if_pos hh]; norm_num)
  · rw [gavara_ok]
    exact hmap _ (by unfold gavaraSample; rw [if_pos hh]; norm_num)
  · rw [managuli_ok]
    exact hmap _ (by unfold managuliSample; rw [if_pos hh]; norm_num)

/-- Witness for C6 at `h = 1`, `R = 2`, half-opening angle `1`,
indentations `[0]`, sample index `0`. -/
theorem C6_zero_indentation_neutral_witness :
    (outList (bec_dimitriadis_paraboloid_bonded 1 [0] "paraboloid" 2))[0]? =
      some (1.0 : ℝ) ∧
    (outList (bec_dimitriadis_paraboloid_not_bonded 1 [0] "paraboloid" 2))[0]? =
      some (1.0 : ℝ) ∧
    (outList (bec_gavara_cone 1 [0] "cone" 1))[0]? = some (1.0 : ℝ) ∧
    (outList (bec_managuli_cone 1 [0] "cone" 1))[0]? = some (1.0 : ℝ) :=
  C6_zero_indentation_neutral 1 2 1 [0] 0 (by norm_num) Nat.one_pos (by simp)

lemma dimBondedSample_concrete :
    dimBondedSample 2 5 0.5 =
      some (1 + (1.133 * (Real.sqrt (0.5 * 5) / 2)
          + 1.283 * (Real.sqrt (0.5 * 5) / 2) ^ 2)
        + (0.769 * (Real.sqrt (0.5 * 5) / 2) ^ 3
          + 0.0975 * (Real.sqrt (0.5 * 5) / 2) ^ 4)) := by
  unfold dimBondedSample
  rw [if_pos (by norm_num : (2 : ℝ) > 0)]

lemma dim_bonded_concrete_bounds :
    3.115 < 1 + (1.133 * (Real.sqrt (0.5 * 5) / 2)
        + 1.283 * (Real.sqrt (0.5 * 5) / 2) ^ 2)
      + (0.769 * (Real.sqrt (0.5 * 5) / 2) ^ 3
        + 0.0975 * (Real.sqrt (0.5 * 5) / 2) ^ 4) ∧
    1 + (1.133 * (Real.sqrt (0.5 * 5) / 2)
        + 1.283 * (Real.sqrt (0.5 * 5) / 2) ^ 2)
      + (0.769 * (Real.sqrt (0.5 * 5) / 2) ^ 3
        + 0.0975 * (Real.sqrt (0.5 * 5) / 2) ^ 4) < 3.116 := by
  rw [show (0.5 : ℝ) * 5 = 2.5 by norm_num]
  have hs2 : Real.sqrt 2.5 ^ 2 = 2.5 := Real.sq_sqrt (by norm_num)
  have h3 : Real.sqrt 2.5 ^ 3 = 2.5 * Real.sqrt 2.5 := by
    calc Real.sqrt 2.5 ^ 3 = Real.sqrt 2.5 ^ 2 * Real.sqrt 2.5 := by ring
    _ = 2.5 * Real.sqrt 2.5 := by rw [hs2]
  have h4 : Real.sqrt 2.5 ^ 4 = 6.25 := by
    calc Real.sqrt 2.5 ^ 4 = (Real.sqrt 2.5 ^ 2) ^ 2 := by ring
    _ = 6.25 := by rw [hs2]; norm_num
  have hlow : (1.5811 : ℝ) < Real.sqrt 2.5 :=
    (Real.lt_sqrt (by norm_num)).mpr (by norm_num)
  have hhigh : Real.sqrt 2.5 < 1.5812 :=
    (Real.sqrt_lt' (by norm_num)).mpr (by norm_num)
  constructor <;> nlinarith [hs2, h3, h4, hlow, hhigh]

/-- C7 counterexample: on
`bec_dimitriadis_paraboloid_bonded(h=2.0, [0.5], "paraboloid", R=5.0)`
the single returned coefficient is the full four-term series at
`X = sqrt(0.5*5)/2`, and it exceeds `2.699` by more than `0.416`: the
claimed value `2.699` keeps only the first two series terms. -/
theorem C7_concrete_counterexample :
    bec_dimitriadis_paraboloid_bonded 2 [0.5] "paraboloid" 5 =
      .ok [1 + (1.133 * (Real.sqrt (0.5 * 5) / 2)
          + 1.283 * (Real.sqrt (0.5 * 5) / 2) ^ 2)
        + (0.769 * (Real.sqrt (0.5 * 5) / 2) ^ 3
          + 0.0975 * (Real.sqrt (0.5 * 5) / 2) ^ 4)] ∧
    2.699 + 0.416 <
      1 + (1.133 * (Real.sqrt (0.5 * 5) / 2)
          + 1.283 * (Real.sqrt (0.5 * 5) / 2) ^ 2)
        + (0.769 * (Real.sqrt (0.5 * 5) / 2) ^ 3
          + 0.0975 * (Real.sqrt (0.5 * 5) / 2) ^ 4) := by
  constructor
  · rw [dim_bonded_ok]
    unfold runSamples
    simp only [List.map_cons, List.map_nil, dimBondedSample_concrete, Option.getD_some]
  · have hb := dim_bonded_concrete_bounds
    norm_num at hb ⊢
    linarith [hb.1]

/-- C7 amended: `bec_dimitriadis_paraboloid_bonded(h=2.0, [0.5],
"paraboloid", R=5.0)` returns the single coefficient
`1 + 1.133*X + 1.283*X^2 + 0.769*X^3 + 0.0975*X^4` with
`X = sqrt(0.5*5)/2`, whose value lies strictly between `3.115` and
`3.116` (approximately `3.1156`, not `2.699`). -/
theorem C7_concrete_amended :
    bec_dimitriadis_paraboloid_bonded 2 [0.5] "paraboloid" 5 =
      .ok [1 + (1.133 * (Real.sqrt (0.5 * 5) / 2)
          + 1.283 * (Real.sqrt (0.5 * 5) / 2) ^ 2)
        + (0.769 * (Real.sqrt (0.5 * 5) / 2) ^ 3
          + 0.0975 * (Real.sqrt (0.5 * 5) / 2) ^ 4)] ∧
    3.115 < 1 + (1.133 * (Real.sqrt (0.5 * 5) / 2)
          + 1.283 * (Real.sqrt (0.5 * 5) / 2) ^ 2)
        + (0.769 * (Real.sqrt (0.5 * 5) / 2) ^ 3
          + 0.0975 * (Real.sqrt (0.5 * 5) / 2) ^ 4) ∧
    1 + (1.133 * (Real.sqrt (0.5 * 5) / 2)
          + 1.283 * (Real.sqrt (0.5 * 5) / 2) ^ 2)
        + (0.769 * (Real.sqrt (0.5 * 5) / 2) ^ 3
          + 0.0975 * (Real.sqrt (0.5 * 5) / 2) ^ 4) < 3.116 := by
  refine ⟨?_, dim_bonded_concrete_bounds.1, dim_bonded_concrete_bounds.2⟩
  rw [dim_bonded_ok]
  unfold runSamples
  simp only [List.map_cons, List.map_nil, dimBondedSample_concrete, Option.getD_some]

/-- C8: at indentation depth `0`, shape `"paraboloid"`, `R = 5` and the
default order `6`, `sphere_approx_kontomaris` returns the single
coefficient `1.01`: every depth-dependent term vanishes and only the
depth-independent order-1 term `(3/2)*sqrt(5) * (2/3)*1.01/sqrt(5)`
remains. -/
theorem C8_kontomaris_zero_depth :
    sphere_approx_kontomaris 0 [0] "paraboloid" 5 6 = .ok [(1.01 : ℝ)] ∧
    3 / 2 * Real.sqrt 5 * (2 / 3 * 1.0100000 / Real.sqrt 5) = (1.01 : ℝ) := by
  have hs5 : Real.sqrt 5 ≠ 0 := Real.sqrt_ne_zero'.mpr (by norm_num)
  have hterm : 3 / 2 * Real.sqrt 5 * (2 / 3 * 1.0100000 / Real.sqrt 5) = (1.01 : ℝ) := by
    field_simp
    ring
  refine ⟨?_, hterm⟩
  rw [kontomaris_ok]
  have hbody : kontomarisSample 5 6 0 = some 1.01 := by
    unfold kontomarisSample kontomaris_model_factors
    rw [show List.range 6 = [0, 1, 2, 3, 4, 5] from rfl]
    simp only [List.foldlM_cons, List.foldlM_nil, List.getElem?_cons_zero,
      List.getElem?_cons_succ, Option.map_some', Option.some_bind, Option.pure_def]
    norm_num [Real.sqrt_zero]
    field_simp
    ring
  unfold runSamples
  simp [hbody]
